import Mathlib

/-!
A shallow embedding of the Cornell Tech weather dashboard
(`src/streamlit_app.py`) and proofs about its data loading, filtering and
aggregation logic.

Conventions of the embedding:
* A pandas `DataFrame` of observations is a `List Obs`.
* Float columns are modelled by `ℚ`; a pandas reduction over a possibly
  empty float column (which yields `NaN` on an empty column) is modelled
  by `PdFloat`, whose `nan` constructor stands for the float `NaN`.
* Code that raises (`.values[0]` on an empty selection) is modelled by
  `Option`, with `none` standing for the raised exception.
* `groupby(keys)[col].mean()` sorts the distinct keys ascending and maps
  each key to the arithmetic mean of the column over its group; this is
  embedded by `groupMeanBy` below, using `List.dedup` and
  `List.insertionSort` for the sorted distinct keys.
-/

/-- A calendar date, as carried by the `time` column after
`pd.to_datetime`. -/
structure Date where
  year : ℤ
  month : ℕ
  day : ℕ
deriving DecidableEq

/-- One raw row of `data/weather.csv`: a `time` value and a kelvin
temperature `Ktemp`. -/
structure RawRow where
  time : Date
  Ktemp : ℚ
deriving DecidableEq

/-- One observation of the loaded dataframe: the columns derived by
`get_weather_data` together with the retained kelvin temperature. -/
structure Obs where
  year : ℤ
  month : ℕ
  day_of_year : ℕ
  Ktemp : ℚ
  Ftemp : ℚ
deriving DecidableEq

/-- Gregorian leap-year test, as used by `pandas.DatetimeIndex.dayofyear`. -/
def isLeapYear (y : ℤ) : Bool :=
  decide (y % 4 = 0 ∧ (y % 100 ≠ 0 ∨ y % 400 = 0))

/-- Days in month `m` (1–12) of a year with leap flag `leap`. -/
def monthLength (leap : Bool) (m : ℕ) : ℕ :=
  match m with
  | 1 => 31
  | 2 => if leap then 29 else 28
  | 3 => 31
  | 4 => 30
  | 5 => 31
  | 6 => 30
  | 7 => 31
  | 8 => 31
  | 9 => 30
  | 10 => 31
  | 11 => 30
  | 12 => 31
  | _ => 0

/-- Ordinal day of the year (1–366), the `dt.dayofyear` accessor. -/
def dayofyear (d : Date) : ℕ :=
  ((List.range (d.month - 1)).map fun i => monthLength (isLeapYear d.year) (i + 1)).sum + d.day

/-- `get_weather_data` (src/streamlit_app.py lines 19–32): derives
`year`, `month`, `day_of_year` from the parsed `time` column and
`Ftemp = (Ktemp - 273.15) * (9/5) + 32`. -/
def get_weather_data (rows : List RawRow) : List Obs :=
  rows.map fun r =>
    { year := r.time.year
      month := r.time.month
      day_of_year := dayofyear r.time
      Ktemp := r.Ktemp
      Ftemp := (r.Ktemp - 273.15) * (9/5) + 32 }

/-- The sidebar season selection. -/
inductive Season where
  | allYear
  | winter
  | spring
  | summer
  | fall
deriving DecidableEq

/-- The user-selected filters: the `year_range` slider (inclusive bounds)
and the season selectbox. -/
structure FilterSpec where
  minYear : ℤ
  maxYear : ℤ
  season : Season
deriving DecidableEq

/-- The season filter (src/streamlit_app.py lines 82–89), with the
predicates exactly as written in the code: winter keeps
`month == 12 || month <= 2`, the other seasons keep a contiguous
month range. -/
def season_filter (s : Season) (df : List Obs) : List Obs :=
  match s with
  | .allYear => df
  | .winter => df.filter fun o => decide (o.month = 12 ∨ o.month ≤ 2)
  | .spring => df.filter fun o => decide (3 ≤ o.month ∧ o.month ≤ 5)
  | .summer => df.filter fun o => decide (6 ≤ o.month ∧ o.month ≤ 8)
  | .fall => df.filter fun o => decide (9 ≤ o.month ∧ o.month ≤ 11)

/-- `filtered_df` (src/streamlit_app.py lines 79–89): first the year-range
filter, then the season filter. -/
def filtered_df (spec : FilterSpec) (df : List Obs) : List Obs :=
  season_filter spec.season
    (df.filter fun o => decide (spec.minYear ≤ o.year ∧ o.year ≤ spec.maxYear))

/-- Arithmetic mean of a list of rationals (the mean of a non-empty
pandas group). -/
def listMean (l : List ℚ) : ℚ := l.sum / (l.length : ℚ)

/-- The sorted distinct keys of a grouping, as produced by pandas
`groupby` (keys sorted ascending, one entry per distinct key). -/
def groupKeys {K : Type} [LinearOrder K] (key : Obs → K) (df : List Obs) : List K :=
  List.insertionSort (· ≤ ·) ((df.map key).dedup)

/-- `groupby(key)['Ftemp'].mean()`: each distinct key, in ascending
order, paired with the mean `Ftemp` of its group. -/
def groupMeanBy {K : Type} [LinearOrder K] (key : Obs → K) (df : List Obs) :
    List (K × ℚ) :=
  (groupKeys key df).map fun k =>
    (k, listMean ((df.filter fun o => decide (key o = k)).map Obs.Ftemp))

/-- `heatmap_data` (line 96): `groupby(['year', 'day_of_year'])['Ftemp'].mean()`,
keys ordered lexicographically. -/
def heatmap_data (df : List Obs) : List ((ℤ ×ₗ ℕ) × ℚ) :=
  groupMeanBy (fun o => toLex (o.year, o.day_of_year)) df

/-- `heatmap_pivot` (line 97): the pivoted grid, read as a lookup from a
`(year, day_of_year)` cell to its mean temperature; a cell with no
observation is `none` (pandas leaves it `NaN`, never `0`). -/
def heatmap_pivot (df : List Obs) (y : ℤ) (d : ℕ) : Option ℚ :=
  ((heatmap_data df).find? fun p => decide (p.1 = toLex (y, d))).map Prod.snd

/-- `monthly_avg` (line 158): `groupby(['year', 'month'])['Ftemp'].mean()`. -/
def monthly_avg (df : List Obs) : List ((ℤ ×ₗ ℕ) × ℚ) :=
  groupMeanBy (fun o => toLex (o.year, o.month)) df

/-- `yearly_avg` (line 203): `groupby('year')['Ftemp'].mean()`. -/
def yearly_avg (df : List Obs) : List (ℤ × ℚ) :=
  groupMeanBy Obs.year df

/-- The result of a pandas reduction (`.mean()`, `.max()`, `.min()`) over
a float column: `nan` on an empty column, otherwise a value. -/
inductive PdFloat where
  | nan
  | val (q : ℚ)
deriving DecidableEq

/-- `avg_temp` (line 145): `filtered_df['Ftemp'].mean()`; `NaN` when the
filtered frame is empty. -/
def avg_temp (df : List Obs) : PdFloat :=
  match df.map Obs.Ftemp with
  | [] => .nan
  | q :: qs => .val (listMean (q :: qs))

/-- `max_temp` (line 148): `filtered_df['Ftemp'].max()`; `NaN` when the
filtered frame is empty. -/
def max_temp (df : List Obs) : PdFloat :=
  match (df.map Obs.Ftemp).max? with
  | none => .nan
  | some q => .val q

/-- `min_temp` (line 151): `filtered_df['Ftemp'].min()`; `NaN` when the
filtered frame is empty. -/
def min_temp (df : List Obs) : PdFloat :=
  match (df.map Obs.Ftemp).min? with
  | none => .nan
  | some q => .val q

/-- `temp_change` (lines 219–222): look up the yearly mean at the
smallest and largest year of `yearly_avg` and subtract. Each `.values[0]`
on an empty selection raises, modelled by `none`. -/
def temp_change (df : List Obs) : Option ℚ :=
  (((yearly_avg df).map Prod.fst).min?).bind fun mn =>
  (((yearly_avg df).map Prod.fst).max?).bind fun mx =>
  ((((yearly_avg df).filter fun p => decide (p.1 = mn)).map Prod.snd).head?).bind
    fun first_year_temp =>
  ((((yearly_avg df).filter fun p => decide (p.1 = mx)).map Prod.snd).head?).bind
    fun last_year_temp =>
  some (last_year_temp - first_year_temp)

/-- The `delta` of the trend metric (line 227):
`'Warmer' if temp_change > 0 else 'Cooler'`. -/
def trend_delta (tc : ℚ) : String :=
  if 0 < tc then "Warmer" else "Cooler"

/-- The displayed magnitude of the trend metric (line 226):
`abs(temp_change)`. -/
def displayed_change (tc : ℚ) : ℚ := |tc|

/-- The month set of each season as the spec words it:
Winter = {12, 1, 2}; Spring = {3, 4, 5}; Summer = {6, 7, 8};
Fall = {9, 10, 11}; All Year keeps every month. -/
def specSeasonMonths (s : Season) (m : ℕ) : Prop :=
  match s with
  | .allYear => True
  | .winter => m = 12 ∨ m = 1 ∨ m = 2
  | .spring => m = 3 ∨ m = 4 ∨ m = 5
  | .summer => m = 6 ∨ m = 7 ∨ m = 8
  | .fall => m = 9 ∨ m = 10 ∨ m = 11

instance (s : Season) (m : ℕ) : Decidable (specSeasonMonths s m) := by
  unfold specSeasonMonths; cases s <;> infer_instance

/-- `meanTemp(y)` as the spec words it: the arithmetic mean of
`temperature_fahrenheit` over the observations of year `y`. -/
def specYearMean (df : List Obs) (y : ℤ) : ℚ :=
  listMean ((df.filter fun o => decide (o.year = y)).map Obs.Ftemp)

/-- The group of observations belonging to heatmap cell `(y, d)`. -/
def heatCell (df : List Obs) (y : ℤ) (d : ℕ) : List Obs :=
  df.filter fun o => decide (o.year = y ∧ o.day_of_year = d)

/-- Sample observation: mid-January 2000. -/
def obsA : Obs := ⟨2000, 1, 15, 270, 10⟩

/-- Sample observation: mid-December 2000. -/
def obsB : Obs := ⟨2000, 12, 350, 280, 30⟩

/-- Sample observation: mid-July 2001. -/
def obsC : Obs := ⟨2001, 7, 200, 300, 20⟩

/-- A small sample dataframe. -/
def sampleDf : List Obs := [obsA, obsB, obsC]

/-- A filter whose year range misses `sampleDf` entirely. -/
def outOfRangeSpec : FilterSpec := ⟨2005, 2010, .allYear⟩

/-- A winter filter over the year 2000 alone. -/
def winterSpec : FilterSpec := ⟨2000, 2000, .winter⟩

/-! ### Helper lemmas about the grouping machinery -/

theorem groupKeys_nodup {K : Type} [LinearOrder K] (key : Obs → K) (df : List Obs) :
    (groupKeys key df).Nodup :=
  (List.perm_insertionSort _ _).nodup_iff.mpr (List.nodup_dedup _)

theorem groupKeys_sorted {K : Type} [LinearOrder K] (key : Obs → K) (df : List Obs) :
    (groupKeys key df).Sorted (· ≤ ·) :=
  List.sorted_insertionSort _ _

theorem mem_groupKeys {K : Type} [LinearOrder K] {key : Obs → K} {df : List Obs} {k : K} :
    k ∈ groupKeys key df ↔ ∃ o ∈ df, key o = k := by
  rw [groupKeys, (List.perm_insertionSort _ _).mem_iff, List.mem_dedup, List.mem_map]

theorem map_fst_groupMeanBy {K : Type} [LinearOrder K] (key : Obs → K) (df : List Obs) :
    (groupMeanBy key df).map Prod.fst = groupKeys key df := by
  rw [groupMeanBy, List.map_map]
  exact List.map_id'' (fun _ => rfl) _

theorem filter_pair_of_not_mem {K B : Type} [DecidableEq K] (f : K → B) (ks : List K) (k : K)
    (hk : k ∉ ks) :
    (ks.map fun x => (x, f x)).filter (fun p => decide (p.1 = k)) = [] := by
  refine List.filter_eq_nil_iff.mpr ?_
  intro p hp
  rcases List.mem_map.mp hp with ⟨x, hx, rfl⟩
  simp only [decide_eq_true_eq]
  exact fun h => hk (h ▸ hx)

theorem filter_pair_of_mem {K B : Type} [DecidableEq K] (f : K → B) {ks : List K} {k : K}
    (hnd : ks.Nodup) (hk : k ∈ ks) :
    (ks.map fun x => (x, f x)).filter (fun p => decide (p.1 = k)) = [(k, f k)] := by
  induction ks with
  | nil => cases hk
  | cons a as ih =>
    rcases List.mem_cons.mp hk with h | h
    · subst h
      simp only [List.map_cons, List.filter_cons, decide_eq_true_eq, if_pos rfl]
      simp [filter_pair_of_not_mem f as k (List.nodup_cons.mp hnd).1]
    · have ha : ¬ (a = k) := fun he => (List.nodup_cons.mp hnd).1 (he ▸ h)
      simp only [List.map_cons, List.filter_cons, decide_eq_true_eq, if_neg ha]
      exact ih (List.nodup_cons.mp hnd).2 h

theorem find?_pair_of_not_mem {K B : Type} [DecidableEq K] (f : K → B) (ks : List K) (k : K)
    (hk : k ∉ ks) :
    (ks.map fun x => (x, f x)).find? (fun p => decide (p.1 = k)) = none := by
  refine List.find?_eq_none.mpr ?_
  intro p hp
  rcases List.mem_map.mp hp with ⟨x, hx, rfl⟩
  simp only [decide_eq_true_eq]
  exact fun h => hk (h ▸ hx)

theorem find?_pair_of_mem {K B : Type} [DecidableEq K] (f : K → B) {ks : List K} {k : K}
    (hk : k ∈ ks) :
    (ks.map fun x => (x, f x)).find? (fun p => decide (p.1 = k)) = some (k, f k) := by
  induction ks with
  | nil => cases hk
  | cons a as ih =>
    by_cases h : a = k
    · subst h
      simp [List.find?_cons]
    · rcases List.mem_cons.mp hk with h' | h'
      · exact absurd h'.symm h
      · simpa [List.find?_cons, h] using ih h'

theorem groupMeanBy_lookup {K : Type} [LinearOrder K] (key : Obs → K) (df : List Obs) (k : K)
    (hk : k ∈ groupKeys key df) :
    (groupMeanBy key df).filter (fun p => decide (p.1 = k)) =
      [(k, listMean ((df.filter fun o => decide (key o = k)).map Obs.Ftemp))] :=
  filter_pair_of_mem _ (groupKeys_nodup key df) hk

theorem groupMeanBy_find_of_mem {K : Type} [LinearOrder K] {key : Obs → K} {df : List Obs}
    {k : K} (hk : k ∈ groupKeys key df) :
    (groupMeanBy key df).find? (fun p => decide (p.1 = k)) =
      some (k, listMean ((df.filter fun o => decide (key o = k)).map Obs.Ftemp)) :=
  find?_pair_of_mem _ hk

theorem groupMeanBy_find_of_not_mem {K : Type} [LinearOrder K] {key : Obs → K} {df : List Obs}
    {k : K} (hk : k ∉ groupKeys key df) :
    (groupMeanBy key df).find? (fun p => decide (p.1 = k)) = none :=
  find?_pair_of_not_mem _ _ _ hk

theorem groupMeanBy_perm {K : Type} [LinearOrder K] (key : Obs → K) {df₁ df₂ : List Obs}
    (h : df₁.Perm df₂) : groupMeanBy key df₁ = groupMeanBy key df₂ := by
  have hkeys : groupKeys key df₁ = groupKeys key df₂ := by
    have p1 : (groupKeys key df₁).Perm ((df₂.map key).dedup) :=
      (List.perm_insertionSort _ _).trans ((h.map key).dedup)
    have p2 : (groupKeys key df₁).Perm (groupKeys key df₂) :=
      p1.trans (List.perm_insertionSort _ _).symm
    exact List.eq_of_perm_of_sorted p2 (groupKeys_sorted key df₁) (groupKeys_sorted key df₂)
  rw [groupMeanBy, groupMeanBy, hkeys]
  refine List.map_congr_left fun k _ => ?_
  have hm := (h.filter (fun o => decide (key o = k))).map Obs.Ftemp
  rw [listMean, listMean, hm.sum_eq, hm.length_eq]

/-! ### Claims -/

/-- C1: every observation produced by `get_weather_data` satisfies
`temperature_fahrenheit = (temperature_kelvin − 273.15) × 9/5 + 32`; the
derived field is a pure function of the retained kelvin field, fixed at
load time. -/
theorem loaded_Ftemp_formula (rows : List RawRow) (o : Obs)
    (h : o ∈ get_weather_data rows) :
    o.Ftemp = (o.Ktemp - 273.15) * (9/5) + 32 := by
  rcases List.mem_map.mp h with ⟨r, _, rfl⟩
  rfl

/-- Witness for `loaded_Ftemp_formula` at a concrete loaded row. -/
theorem loaded_Ftemp_formula_witness :
    (⟨2020, 1, 15, 270.15, 26.6⟩ : Obs) ∈ get_weather_data [⟨⟨2020, 1, 15⟩, 270.15⟩] ∧
    (⟨2020, 1, 15, 270.15, 26.6⟩ : Obs).Ftemp
      = ((⟨2020, 1, 15, 270.15, 26.6⟩ : Obs).Ktemp - 273.15) * (9/5) + 32 := by
  have hm : (⟨2020, 1, 15, 270.15, 26.6⟩ : Obs) ∈ get_weather_data [⟨⟨2020, 1, 15⟩, 270.15⟩] := by
    norm_num [get_weather_data, dayofyear]
  exact ⟨hm, loaded_Ftemp_formula _ _ hm⟩

/-- C2: on a dataframe whose months are calendar months (1–12), the
shared filter step keeps exactly the observations with
`minYear ≤ year ≤ maxYear` whose month lies in the selected season's
month set (Winter = {12, 1, 2}, Spring = {3, 4, 5}, Summer = {6, 7, 8},
Fall = {9, 10, 11}); in particular a December observation is retained
according to its own calendar year `Y`, exactly as a January/February
observation of the same year `Y` is. -/
theorem filtered_df_characterization (spec : FilterSpec) (df : List Obs)
    (hm : ∀ o ∈ df, 1 ≤ o.month ∧ o.month ≤ 12) :
    filtered_df spec df =
      df.filter (fun o => decide (spec.minYear ≤ o.year ∧ o.year ≤ spec.maxYear ∧
        specSeasonMonths spec.season o.month)) ∧
    (∀ o ∈ df, o.month = 12 →
      (o ∈ filtered_df spec df ↔
        spec.minYear ≤ o.year ∧ o.year ≤ spec.maxYear ∧
          specSeasonMonths spec.season 12)) := by
  have hmain : filtered_df spec df =
      df.filter (fun o => decide (spec.minYear ≤ o.year ∧ o.year ≤ spec.maxYear ∧
        specSeasonMonths spec.season o.month)) := by
    rcases spec with ⟨mn, mx, s⟩
    cases s
    case allYear =>
      simp only [filtered_df, season_filter]
      refine List.filter_congr fun o ho => ?_
      exact decide_eq_decide.mpr (by simp [specSeasonMonths])
    case winter =>
      simp only [filtered_df, season_filter, List.filter_filter]
      refine List.filter_congr fun o ho => ?_
      obtain ⟨h1, h2⟩ := hm o ho
      rw [← Bool.decide_and]
      refine decide_eq_decide.mpr ?_
      simp only [specSeasonMonths]
      omega
    case spring =>
      simp only [filtered_df, season_filter, List.filter_filter]
      refine List.filter_congr fun o ho => ?_
      obtain ⟨h1, h2⟩ := hm o ho
      rw [← Bool.decide_and]
      refine decide_eq_decide.mpr ?_
      simp only [specSeasonMonths]
      omega
    case summer =>
      simp only [filtered_df, season_filter, List.filter_filter]
      refine List.filter_congr fun o ho => ?_
      obtain ⟨h1, h2⟩ := hm o ho
      rw [← Bool.decide_and]
      refine decide_eq_decide.mpr ?_
      simp only [specSeasonMonths]
      omega
    case fall =>
      simp only [filtered_df, season_filter, List.filter_filter]
      refine List.filter_congr fun o ho => ?_
      obtain ⟨h1, h2⟩ := hm o ho
      rw [← Bool.decide_and]
      refine decide_eq_decide.mpr ?_
      simp only [specSeasonMonths]
      omega
  refine ⟨hmain, fun o ho h12 => ?_⟩
  rw [hmain, List.mem_filter]
  simp [ho, h12]

/-- Witness for `filtered_df_characterization`: the winter filter over
the sample dataframe. -/
theorem filtered_df_characterization_witness :
    (filtered_df winterSpec sampleDf =
      sampleDf.filter (fun o => decide (winterSpec.minYear ≤ o.year ∧
        o.year ≤ winterSpec.maxYear ∧
        specSeasonMonths winterSpec.season o.month))) ∧
    (∀ o ∈ sampleDf, o.month = 12 →
      (o ∈ filtered_df winterSpec sampleDf ↔
        winterSpec.minYear ≤ o.year ∧ o.year ≤ winterSpec.maxYear ∧
          specSeasonMonths winterSpec.season 12)) :=
  filtered_df_characterization winterSpec sampleDf (by decide)

/-- C3: when the filter step yields an empty frame, the yearly series is
empty and the trend computation fails (`none`, the raised lookup on the
missing minimum/maximum year) rather than returning any default value. -/
theorem temp_change_empty_signals (df : List Obs) (spec : FilterSpec)
    (h : filtered_df spec df = []) :
    yearly_avg (filtered_df spec df) = [] ∧ temp_change (filtered_df spec df) = none := by
  rw [h]
  exact ⟨rfl, rfl⟩

/-- Witness for `temp_change_empty_signals`: a year range entirely
outside the sample dataframe. -/
theorem temp_change_empty_signals_witness :
    yearly_avg (filtered_df outOfRangeSpec sampleDf) = [] ∧
    temp_change (filtered_df outOfRangeSpec sampleDf) = none :=
  temp_change_empty_signals sampleDf outOfRangeSpec (by decide)

/-- C4 counterexample: with the year range entirely outside the sample
dataframe's years, the filtered frame is empty and the heatmap grid is
empty, but the three scalar statistics all evaluate to pandas' `NaN`
(the empty-column reduction) — they are `NaN`, not a non-`NaN`
"undefined" signal, refuting the claim as stated. -/
theorem heatmap_stats_nan_counterexample :
    filtered_df outOfRangeSpec sampleDf = [] ∧
    heatmap_data (filtered_df outOfRangeSpec sampleDf) = [] ∧
    avg_temp (filtered_df outOfRangeSpec sampleDf) = PdFloat.nan ∧
    max_temp (filtered_df outOfRangeSpec sampleDf) = PdFloat.nan ∧
    min_temp (filtered_df outOfRangeSpec sampleDf) = PdFloat.nan :=
  ⟨rfl, rfl, rfl, rfl, rfl⟩

/-- C4 (amended): for every FilterSpec whose year range lies entirely
outside the dataframe's years, the filtered frame is empty, the heatmap
grid is empty, and the scalar statistics (mean, max, min of `Ftemp`)
evaluate to pandas' `NaN` for an empty reduction — never to zero or any
other numeric default. -/
theorem heatmap_empty_stats (spec : FilterSpec) (df : List Obs)
    (h : ∀ o ∈ df, o.year < spec.minYear ∨ spec.maxYear < o.year) :
    filtered_df spec df = [] ∧
    heatmap_data (filtered_df spec df) = [] ∧
    avg_temp (filtered_df spec df) = PdFloat.nan ∧
    max_temp (filtered_df spec df) = PdFloat.nan ∧
    min_temp (filtered_df spec df) = PdFloat.nan := by
  have hempty : filtered_df spec df = [] := by
    have hyr : df.filter (fun o => decide (spec.minYear ≤ o.year ∧ o.year ≤ spec.maxYear))
        = [] := by
      refine List.filter_eq_nil_iff.mpr fun o ho => ?_
      simp only [decide_eq_true_eq]
      rcases h o ho with h' | h' <;> omega
    rw [filtered_df, hyr]
    cases spec.season <;> rfl
  rw [hempty]
  exact ⟨rfl, rfl, rfl, rfl, rfl⟩

/-- Witness for `heatmap_empty_stats` at the sample dataframe. -/
theorem heatmap_empty_stats_witness :
    filtered_df outOfRangeSpec sampleDf = [] ∧
    heatmap_data (filtered_df outOfRangeSpec sampleDf) = [] ∧
    avg_temp (filtered_df outOfRangeSpec sampleDf) = PdFloat.nan ∧
    max_temp (filtered_df outOfRangeSpec sampleDf) = PdFloat.nan ∧
    min_temp (filtered_df outOfRangeSpec sampleDf) = PdFloat.nan :=
  heatmap_empty_stats outOfRangeSpec sampleDf (by decide)

/-- C5: on a non-empty frame, `temp_change` equals the yearly mean at
the largest year present in the yearly series minus the yearly mean at
the smallest year present — the bounds come from the series itself, not
from the FilterSpec. -/
theorem temp_change_min_max_years (df : List Obs) (h : df ≠ []) :
    ∃ mn mx : ℤ,
      ((yearly_avg df).map Prod.fst).min? = some mn ∧
      ((yearly_avg df).map Prod.fst).max? = some mx ∧
      temp_change df = some (specYearMean df mx - specYearMean df mn) := by
  obtain ⟨o, ho⟩ := List.exists_mem_of_ne_nil df h
  have hkmem : Obs.year o ∈ groupKeys Obs.year df := mem_groupKeys.mpr ⟨o, ho, rfl⟩
  have hkeys_ne : groupKeys Obs.year df ≠ [] := List.ne_nil_of_mem hkmem
  have hmapfst : (yearly_avg df).map Prod.fst = groupKeys Obs.year df :=
    map_fst_groupMeanBy Obs.year df
  obtain ⟨a, as, hcons⟩ := List.exists_cons_of_ne_nil hkeys_ne
  have hmin : (groupKeys Obs.year df).min? = some (as.foldl min a) := by rw [hcons]; rfl
  have hmax : (groupKeys Obs.year df).max? = some (as.foldl max a) := by rw [hcons]; rfl
  have hmn_mem : as.foldl min a ∈ groupKeys Obs.year df :=
    List.min?_mem (fun x y => min_choice x y) hmin
  have hmx_mem : as.foldl max a ∈ groupKeys Obs.year df :=
    List.max?_mem (fun x y => max_choice x y) hmax
  refine ⟨as.foldl min a, as.foldl max a, by rw [hmapfst]; exact hmin,
    by rw [hmapfst]; exact hmax, ?_⟩
  have hlook_mn := groupMeanBy_lookup Obs.year df (as.foldl min a) hmn_mem
  have hlook_mx := groupMeanBy_lookup Obs.year df (as.foldl max a) hmx_mem
  rw [temp_change, hmapfst, hmin, hmax]
  simp only [Option.some_bind]
  rw [show yearly_avg df = groupMeanBy Obs.year df from rfl, hlook_mn, hlook_mx]
  simp only [List.map_cons, List.map_nil, List.head?_cons, Option.some_bind]
  rfl

/-- Witness for `temp_change_min_max_years` at the sample dataframe. -/
theorem temp_change_min_max_years_witness :
    ∃ mn mx : ℤ,
      ((yearly_avg sampleDf).map Prod.fst).min? = some mn ∧
      ((yearly_avg sampleDf).map Prod.fst).max? = some mx ∧
      temp_change sampleDf = some (specYearMean sampleDf mx - specYearMean sampleDf mn) :=
  temp_change_min_max_years sampleDf (by decide)

/-- The trend of the sample dataframe computes to exactly zero change. -/
theorem temp_change_sample : temp_change sampleDf = some 0 := by
  norm_num [temp_change, yearly_avg, groupMeanBy, groupKeys, listMean, sampleDf,
    obsA, obsB, obsC, List.insertionSort, List.orderedInsert, List.dedup,
    List.filter, List.min?, List.max?]

/-- C6: for a computed temperature change, the direction label is
"Warmer" exactly when the change is strictly positive, and "Cooler"
otherwise — including when the change is exactly zero. -/
theorem trend_delta_spec (df : List Obs) (tc : ℚ) (h : temp_change df = some tc) :
    (trend_delta tc = "Warmer" ↔ 0 < tc) ∧ (tc ≤ 0 → trend_delta tc = "Cooler") := by
  constructor
  · constructor
    · intro hw
      by_contra hnot
      rw [trend_delta, if_neg hnot] at hw
      exact absurd hw (by decide)
    · intro hpos
      rw [trend_delta, if_pos hpos]
  · intro hle
    rw [trend_delta, if_neg (not_lt.mpr hle)]

/-- Witness for `trend_delta_spec`: the sample dataframe's zero change
is labelled "Cooler". -/
theorem trend_delta_spec_witness :
    (trend_delta 0 = "Warmer" ↔ 0 < (0 : ℚ)) ∧ ((0 : ℚ) ≤ 0 → trend_delta 0 = "Cooler") :=
  trend_delta_spec sampleDf 0 temp_change_sample

/-- C9: the yearly-trend view displays `abs(temp_change)`: the shown
magnitude is non-negative and insensitive to the sign of the change, so
only the Warmer/Cooler label carries the direction. -/
theorem displayed_change_abs (df : List Obs) (tc : ℚ) (h : temp_change df = some tc) :
    displayed_change tc = |tc| ∧ 0 ≤ displayed_change tc ∧
      displayed_change tc = displayed_change (-tc) := by
  refine ⟨rfl, abs_nonneg tc, ?_⟩
  rw [displayed_change, displayed_change, abs_neg]

/-- Witness for `displayed_change_abs` at the sample dataframe. -/
theorem displayed_change_abs_witness :
    displayed_change 0 = |(0 : ℚ)| ∧ 0 ≤ displayed_change 0 ∧
      displayed_change 0 = displayed_change (-0) :=
  displayed_change_abs sampleDf 0 temp_change_sample

/-- C10: grouping keys are unique in the grouped outputs: the monthly
table has at most one row per `(year, month)` and the yearly series at
most one row per year. -/
theorem grouping_keys_unique (df : List Obs) :
    ((monthly_avg df).map Prod.fst).Nodup ∧ ((yearly_avg df).map Prod.fst).Nodup := by
  constructor
  · rw [monthly_avg, map_fst_groupMeanBy]; exact groupKeys_nodup _ _
  · rw [yearly_avg, map_fst_groupMeanBy]; exact groupKeys_nodup _ _

/-- C8: both grouped views are invariant under any permutation of the
input observations. -/
theorem grouping_perm_invariant (df₁ df₂ : List Obs) (h : df₁.Perm df₂) :
    heatmap_data df₁ = heatmap_data df₂ ∧ monthly_avg df₁ = monthly_avg df₂ :=
  ⟨groupMeanBy_perm _ h, groupMeanBy_perm _ h⟩

/-- Witness for `grouping_perm_invariant`: a reversal of the sample
dataframe. -/
theorem grouping_perm_invariant_witness :
    heatmap_data [obsA, obsB, obsC] = heatmap_data [obsC, obsB, obsA] ∧
    monthly_avg [obsA, obsB, obsC] = monthly_avg [obsC, obsB, obsA] :=
  grouping_perm_invariant _ _ (by decide)

/-- C7: the heatmap grid groups observations by `(year, day_of_year)`
and takes the arithmetic mean of `Ftemp` per group; a cell with at least
one observation holds exactly that group's mean, and a cell with no
observation is left undefined (`none`), never filled with zero. -/
theorem heatmap_pivot_spec (df : List Obs) (y : ℤ) (d : ℕ) :
    heatmap_pivot df y d =
      if heatCell df y d = [] then none
      else some (listMean ((heatCell df y d).map Obs.Ftemp)) := by
  have hpred : ∀ o : Obs,
      (decide (toLex (o.year, o.day_of_year) = toLex (y, d)))
        = decide (o.year = y ∧ o.day_of_year = d) := by
    intro o
    refine decide_eq_decide.mpr ?_
    rw [toLex_inj, Prod.ext_iff]
  by_cases hc : heatCell df y d = []
  · rw [if_pos hc]
    have hnmem : toLex (y, d) ∉ groupKeys (fun o => toLex (o.year, o.day_of_year)) df := by
      rw [mem_groupKeys]
      rintro ⟨o, ho, hk⟩
      have hmemcell : o ∈ heatCell df y d := by
        rw [heatCell, List.mem_filter, decide_eq_true_eq]
        exact ⟨ho, Prod.ext_iff.mp (toLex_inj.mp hk)⟩
      rw [hc] at hmemcell
      cases hmemcell
    rw [heatmap_pivot, heatmap_data, groupMeanBy_find_of_not_mem hnmem]
    rfl
  · rw [if_neg hc]
    obtain ⟨o, ho⟩ := List.exists_mem_of_ne_nil _ hc
    rw [heatCell, List.mem_filter, decide_eq_true_eq] at ho
    have hmem : toLex (y, d) ∈ groupKeys (fun o => toLex (o.year, o.day_of_year)) df :=
      mem_groupKeys.mpr ⟨o, ho.1, by rw [ho.2.1, ho.2.2]⟩
    rw [heatmap_pivot, heatmap_data, groupMeanBy_find_of_mem hmem]
    simp only [Option.map_some']
    rw [List.filter_congr fun o _ => hpred o]
    rfl
